import Mathlib

/-!
Verification of the workout-progress state machine in
`backend/routers/history.py` (the history subsystem): a shallow embedding
of the progress engine, the status projector and the plan reader, followed
by theorems settling the specification claims.

Conventions of the embedding:
* Python dictionaries become association lists `List (String × α)` with
  insertion-order preserving update (`dset`) and lookup (`dget`).
* The Python `set` of completed set ids becomes `Finset String`.
* Wall-clock timestamps (`datetime.utcnow().isoformat()`) become an
  explicit `now : Nat` parameter stored where the code stores a timestamp.
* `HTTPException` becomes the error type `Err`; raising it before any
  database write leaves the stored record unchanged, which the
  `complete_set_store` wrapper makes explicit.
* The floating point expression `int(completed_count / total_sets * 100)`
  is modelled as natural floor division `completed_count * 100 / total_sets`
  (truncation of the nonnegative real quotient).
-/

/-- One entry of a workout plan: `{'day': <label>, 'exercises_ids': [...]}`.
Both keys are read with `.get`, so both may be absent (the label defaults
to `'Unknown'`, the id list to `[]`). -/
structure DayPlan where
  day : Option String
  exercises_ids : List String
deriving DecidableEq

/-- A document of the `sets` collection, with the fields read by
`get_set_details`. The code reads the exercise reference under the two
spellings `exercise_id` and `excersise_id`. -/
structure SetDoc where
  name : Option String
  exercise_id : Option String
  excersise_id : Option String
  reps : Option Int
  weight : Option Int
  duration_sec : Option Int
deriving DecidableEq

/-- A document of the `exercises` collection, with the fields read by
`get_set_details`. -/
structure ExerciseDoc where
  name : Option String
  category : Option String
  equipment : Option String
  instructions : List String
deriving DecidableEq

/-- The enriched exercise information built inside `get_set_details`. -/
structure ExerciseInfo where
  id : String
  name : Option String
  category : Option String
  equipment : Option String
  instructions : List String
deriving DecidableEq

/-- The dictionary returned by `get_set_details`. -/
structure SetDetails where
  set_id : String
  name : Option String
  exercise_id : Option String
  reps : Option Int
  weight : Option Int
  duration_sec : Option Int
  exercise : Option ExerciseInfo
deriving DecidableEq

/-- One per-set progress entry of the `set_progress` mapping. Absent
dictionary keys are modelled as `none` (resp. `false` for
`is_complete`). -/
structure SetProg where
  completed_reps : Option Int
  completed_duration_sec : Option Int
  completed_at : Option Nat
  is_complete : Bool
  updated_at : Option Nat
deriving DecidableEq

/-- The empty per-set progress dictionary `{}`. -/
def SetProg.empty : SetProg :=
  { completed_reps := none, completed_duration_sec := none,
    completed_at := none, is_complete := false, updated_at := none }

/-- The mutable progress document of the `user_workout_progress`
collection for one (user, workout) pair. -/
structure ProgressRecord where
  current_day_index : Nat
  completed_sets : Finset String
  set_progress : List (String × SetProg)
  updated_at : Nat
deriving DecidableEq

/-- The read-only database context of one request: the workout plan of the
workout being tracked and the `sets` and `exercises` collections. -/
structure Env where
  workout_plan : List DayPlan
  setsDB : List (String × SetDoc)
  exercisesDB : List (String × ExerciseDoc)

/-- Error outcomes of the engine, abstracting the `HTTPException`s raised
by the endpoints. -/
inductive Err where
  | NotFound
  | EmptyPlan
  | SetNotInCurrentDay
  | SetNotFound
deriving DecidableEq

/-- Dictionary lookup on an association list. -/
def dget (l : List (String × α)) (k : String) : Option α :=
  (l.find? (fun p => p.1 == k)).map (fun p => p.2)

/-- Dictionary update on an association list, preserving insertion order
as a Python dict does: an existing key is overwritten in place, a new key
is appended. -/
def dset (l : List (String × α)) (k : String) (v : α) : List (String × α) :=
  if (l.find? (fun p => p.1 == k)).isSome then
    l.map (fun p => if p.1 == k then (k, v) else p)
  else l ++ [(k, v)]

/-- Python truthiness of an optional integer field (`None` and `0` are
falsy). -/
def truthyInt : Option Int → Bool
  | none => false
  | some n => n != 0

/-- Python truthiness of an optional string field (`None` and the empty
string are falsy). -/
def truthyStr : Option String → Bool
  | none => false
  | some s => s != ""

/-- The Python expression `a or b` on two optional string fields. -/
def py_or (a b : Option String) : Option String :=
  if truthyStr a then a else b

/-- The day label with its default: `day_plan.get('day', 'Unknown')`. -/
def day_label (dp : DayPlan) : String := dp.day.getD "Unknown"

/-- The set ids of the day at position `i`:
`workout_plan[i].get('exercises_ids', [])`. -/
def day_set_ids (plan : List DayPlan) (i : Nat) : List String :=
  ((plan.get? i).map (fun dp => dp.exercises_ids)).getD []

/-- The defensive index reset that every engine entry point performs:
`if current_day_index >= len(workout_plan): current_day_index = 0`. -/
def effective_day_index (plan : List DayPlan) (i : Nat) : Nat :=
  if i ≥ plan.length then 0 else i

/-- The day-completion test
`len([s for s in set_ids_for_day if s in completed_sets]) == len(set_ids_for_day) and len(set_ids_for_day) > 0`. -/
def all_day_sets_complete (ids : List String) (completed : Finset String) : Bool :=
  ((ids.filter (fun s => decide (s ∈ completed))).length == ids.length)
    && decide (ids.length > 0)

/-- Embedding of `get_set_details`: resolves a set id against the `sets`
collection, returning `none` on a dangling reference, and enriches it with
exercise metadata when the exercise reference (under either spelling)
resolves. -/
def get_set_details (env : Env) (set_id : String) : Option SetDetails :=
  match dget env.setsDB set_id with
  | none => none
  | some set_doc =>
    let exercise_id := py_or set_doc.exercise_id set_doc.excersise_id
    let exercise_info : Option ExerciseInfo :=
      if truthyStr exercise_id then
        match exercise_id with
        | none => none
        | some eid =>
          match dget env.exercisesDB eid with
          | none => none
          | some ex =>
            some { id := eid, name := ex.name, category := ex.category,
                   equipment := ex.equipment, instructions := ex.instructions }
      else none
    some { set_id := set_id, name := set_doc.name, exercise_id := exercise_id,
           reps := set_doc.reps, weight := set_doc.weight,
           duration_sec := set_doc.duration_sec, exercise := exercise_info }

/-- One annotated entry of the status list of sets. -/
structure SetView where
  set_id : String
  set_name : Option String
  exercise_id : Option String
  exercise_name : Option String
  target_reps : Option Int
  target_weight : Option Int
  target_duration_sec : Option Int
  completed_reps : Option Int
  completed_duration_sec : Option Int
  is_complete : Bool
  completed_at : Option Nat
deriving DecidableEq

/-- The `progress` summary block of a status response. -/
structure ProgressSummary where
  completed_sets : Nat
  total_sets : Nat
  completion_percentage : Nat
deriving DecidableEq

/-- The status response assembled by `build_status_response`. -/
structure StatusView where
  day_name : String
  current_day_index : Nat
  sets : List SetView
  progress : ProgressSummary
deriving DecidableEq

/-- One entry of the `sets` list of a status response, or `none` when the
set id does not resolve (the code skips such ids with `continue`). -/
def build_set_view (env : Env) (completed : Finset String)
    (sp : List (String × SetProg)) (set_id : String) : Option SetView :=
  (get_set_details env set_id).map fun d =>
    let progress_data := (dget sp set_id).getD SetProg.empty
    { set_id := set_id
      set_name := d.name
      exercise_id := d.exercise_id
      exercise_name :=
        match d.exercise with
        | some e => e.name
        | none => some "Unknown Exercise"
      target_reps := d.reps
      target_weight := d.weight
      target_duration_sec := d.duration_sec
      completed_reps := progress_data.completed_reps
      completed_duration_sec := progress_data.completed_duration_sec
      is_complete := decide (set_id ∈ completed)
      completed_at := progress_data.completed_at }

/-- Embedding of `build_status_response`: fails with `EmptyPlan` on an
empty workout plan, resets an out-of-range day index to 0, assembles the
list of resolvable sets of the current day and the progress summary, with
`completion_percentage` the truncated percentage and 0 when no set
resolves. -/
def build_status_response (env : Env) (doc : ProgressRecord) :
    Except Err StatusView :=
  if env.workout_plan = [] then .error .EmptyPlan
  else
    let i := effective_day_index env.workout_plan doc.current_day_index
    let dp := (env.workout_plan.get? i).getD { day := none, exercises_ids := [] }
    let sets_list :=
      dp.exercises_ids.filterMap
        (build_set_view env doc.completed_sets doc.set_progress)
    let total_sets := sets_list.length
    let completed_count := (sets_list.filter (fun s => s.is_complete)).length
    let completion_percentage :=
      if total_sets > 0 then completed_count * 100 / total_sets else 0
    .ok { day_name := day_label dp
          current_day_index := i
          sets := sets_list
          progress :=
            { completed_sets := completed_count
              total_sets := total_sets
              completion_percentage := completion_percentage } }

/-- Embedding of `check_and_progress_day_if_needed`: if the (defensively
reset) current day is fully complete and non-empty, advance to the next
day, clearing the finished day completion marks, or roll over to day 0,
clearing the marks of the new day 0; otherwise return the document
unchanged. -/
def check_and_progress_day_if_needed (env : Env) (now : Nat)
    (doc : ProgressRecord) : ProgressRecord :=
  if env.workout_plan = [] then doc
  else
    let n := env.workout_plan.length
    let i := effective_day_index env.workout_plan doc.current_day_index
    let set_ids_for_day := day_set_ids env.workout_plan i
    if all_day_sets_complete set_ids_for_day doc.completed_sets then
      let next0 := i + 1
      if next0 ≥ n then
        let new_day_set_ids := (day_set_ids env.workout_plan 0).toFinset
        { doc with current_day_index := 0
                   completed_sets := doc.completed_sets \ new_day_set_ids
                   updated_at := now }
      else
        { doc with current_day_index := next0
                   completed_sets := doc.completed_sets \ set_ids_for_day.toFinset
                   updated_at := now }
    else doc

/-- Embedding of `get_status` (and of the `latest` endpoints, which share
its body): reconcile via `check_and_progress_day_if_needed`, then project
the status view. User lookup and lazy record creation are abstracted into
the given `doc`. -/
def get_status (env : Env) (now : Nat) (doc : ProgressRecord) :
    Except Err StatusView :=
  build_status_response env (check_and_progress_day_if_needed env now doc)

/-- The first persisted write of `complete_set_endpoint`: when the set is
not yet complete, add it to `completed_sets` and stamp its `set_progress`
entry (`completed_at`, `is_complete`, and default `completed_reps` or
`completed_duration_sec` copied from truthy targets of the resolved set);
when it is already complete, the write still happens but changes only
`updated_at`. -/
def mark_set_complete (env : Env) (now : Nat) (doc : ProgressRecord)
    (set_id : String) : ProgressRecord :=
  if set_id ∈ doc.completed_sets then { doc with updated_at := now }
  else
    let entry0 := (dget doc.set_progress set_id).getD SetProg.empty
    let entry1 := { entry0 with completed_at := some now, is_complete := true }
    let entry2 :=
      match get_set_details env set_id with
      | none => entry1
      | some d =>
        let e :=
          if truthyInt d.reps && entry1.completed_reps.isNone then
            { entry1 with completed_reps := d.reps }
          else entry1
        if truthyInt d.duration_sec && e.completed_duration_sec.isNone then
          { e with completed_duration_sec := d.duration_sec }
        else e
    { doc with completed_sets := insert set_id doc.completed_sets
               set_progress := dset doc.set_progress set_id entry2
               updated_at := now }

/-- The outcome dictionary returned by `complete_set_endpoint`. -/
structure CompletionOutcome where
  day_complete : Bool
  new_day_started : Bool
  new_day_name : Option String
  current_day_index : Nat
deriving DecidableEq

/-- Embedding of `complete_set_endpoint`: validates the plan is non-empty
and the set belongs to the (defensively reset) current day, marks the set
complete and persists, then re-checks day completion on the persisted
state and, if the day is complete, advances or rolls over exactly as
`check_and_progress_day_if_needed` does, persisting again. -/
def complete_set_endpoint (env : Env) (now : Nat) (doc : ProgressRecord)
    (set_id : String) : Except Err (CompletionOutcome × ProgressRecord) :=
  if env.workout_plan = [] then .error .EmptyPlan
  else
    let n := env.workout_plan.length
    let i := effective_day_index env.workout_plan doc.current_day_index
    let set_ids_for_day := day_set_ids env.workout_plan i
    if set_id ∈ set_ids_for_day then
      let doc1 := mark_set_complete env now doc set_id
      if all_day_sets_complete set_ids_for_day doc1.completed_sets then
        let next0 := i + 1
        if next0 ≥ n then
          let new_day_set_ids := (day_set_ids env.workout_plan 0).toFinset
          let doc2 := { doc1 with
                          current_day_index := 0
                          completed_sets := doc1.completed_sets \ new_day_set_ids }
          .ok ({ day_complete := true, new_day_started := true,
                 new_day_name := (env.workout_plan.get? 0).map day_label,
                 current_day_index := 0 }, doc2)
        else
          let doc2 := { doc1 with
                          current_day_index := next0
                          completed_sets :=
                            doc1.completed_sets \ set_ids_for_day.toFinset }
          .ok ({ day_complete := true, new_day_started := true,
                 new_day_name := (env.workout_plan.get? next0).map day_label,
                 current_day_index := next0 }, doc2)
      else
        .ok ({ day_complete := false, new_day_started := false,
               new_day_name := none, current_day_index := i }, doc1)
    else .error .SetNotInCurrentDay

/-- The stored progress record after a `complete_set_endpoint` call: on an
error the exception is raised before any database write, so the stored
record is the one read. -/
def complete_set_store (env : Env) (now : Nat) (doc : ProgressRecord)
    (set_id : String) : ProgressRecord :=
  match complete_set_endpoint env now doc set_id with
  | .ok (_, d) => d
  | .error _ => doc

/-- Embedding of `update_set_progress_endpoint`: fails with `SetNotFound`
when the set id belongs to no day of the plan; otherwise overwrites the
provided `completed_reps` and `completed_duration_sec` fields of the
`set_progress` entry of the set (creating the entry when absent) and
stamps its `updated_at`, persisting only `set_progress` and the record
timestamp. -/
def update_set_progress_endpoint (env : Env) (now : Nat)
    (doc : ProgressRecord) (set_id : String) (completed_reps : Option Int)
    (completed_duration_sec : Option Int) : Except Err ProgressRecord :=
  if env.workout_plan.any (fun dp => decide (set_id ∈ dp.exercises_ids)) then
    let entry0 := (dget doc.set_progress set_id).getD SetProg.empty
    let entry1 :=
      match completed_reps with
      | some r => { entry0 with completed_reps := some r }
      | none => entry0
    let entry2 :=
      match completed_duration_sec with
      | some d => { entry1 with completed_duration_sec := some d }
      | none => entry1
    let entry3 := { entry2 with updated_at := some now }
    .ok { doc with set_progress := dset doc.set_progress set_id entry3
                   updated_at := now }
  else .error .SetNotFound

/-- Modelled from the spec: the progress summary percentage as the spec
words it, `completion_percentage = round(completed/total*100)` with 0 on
an empty total; the rounding of the nonnegative rational `100*c/t` to the
nearest integer (halves up) is `(200*c + t) / (2*t)`. -/
def spec_completion_percentage (completed total : Nat) : Nat :=
  if total > 0 then (completed * 100 * 2 + total) / (2 * total) else 0

/-! Concrete fixtures used by witness and counterexample theorems. -/

/-- A two day plan (`Day 1: [A]`, `Day 2: [B]`) with both sets resolvable. -/
def envTwoDay : Env :=
  { workout_plan :=
      [{ day := some "Day 1", exercises_ids := ["A"] },
       { day := some "Day 2", exercises_ids := ["B"] }]
    setsDB :=
      [("A", { name := some "Set A", exercise_id := some "ex1",
               excersise_id := none, reps := some 10, weight := none,
               duration_sec := none }),
       ("B", { name := some "Set B", exercise_id := none,
               excersise_id := some "ex1", reps := none, weight := none,
               duration_sec := some 30 })]
    exercisesDB :=
      [("ex1", { name := some "Pushup", category := none, equipment := none,
                 instructions := [] })] }

/-- A one day plan with three resolvable sets. -/
def envThreeSets : Env :=
  { workout_plan := [{ day := some "Day 1", exercises_ids := ["A", "B", "C"] }]
    setsDB :=
      [("A", { name := none, exercise_id := none, excersise_id := none,
               reps := none, weight := none, duration_sec := none }),
       ("B", { name := none, exercise_id := none, excersise_id := none,
               reps := none, weight := none, duration_sec := none }),
       ("C", { name := none, exercise_id := none, excersise_id := none,
               reps := none, weight := none, duration_sec := none })]
    exercisesDB := [] }

/-- A one day plan whose two set ids resolve to nothing in the sets
collection. -/
def envDangling : Env :=
  { workout_plan := [{ day := some "Day 1", exercises_ids := ["X", "Y"] }]
    setsDB := []
    exercisesDB := [] }

/-- A workout with an empty day-plan list. -/
def envEmptyPlan : Env :=
  { workout_plan := [], setsDB := [], exercisesDB := [] }

/-- A freshly created progress record, as `get_or_create_progress` builds
it. -/
def docFresh : ProgressRecord :=
  { current_day_index := 0, completed_sets := ∅, set_progress := [],
    updated_at := 0 }

/-! Helper lemmas about the embedded operations. -/

theorem all_day_sets_complete_iff (ids : List String) (c : Finset String) :
    all_day_sets_complete ids c = true ↔ (∀ s ∈ ids, s ∈ c) ∧ ids ≠ [] := by
  simp [all_day_sets_complete, List.filter_length_eq_length, List.length_pos]

theorem mark_set_complete_completed_sets (env : Env) (now : Nat)
    (doc : ProgressRecord) (set_id : String) :
    (mark_set_complete env now doc set_id).completed_sets
      = insert set_id doc.completed_sets := by
  unfold mark_set_complete
  split
  · exact (Finset.insert_eq_self.mpr (by assumption)).symm
  · rfl

theorem mark_set_complete_current_day_index (env : Env) (now : Nat)
    (doc : ProgressRecord) (set_id : String) :
    (mark_set_complete env now doc set_id).current_day_index
      = doc.current_day_index := by
  unfold mark_set_complete
  split <;> rfl

theorem mark_set_complete_already (env : Env) (now : Nat)
    (doc : ProgressRecord) (set_id : String)
    (h : set_id ∈ doc.completed_sets) :
    mark_set_complete env now doc set_id = { doc with updated_at := now } := by
  unfold mark_set_complete
  rw [if_pos h]

theorem find?_overwrite_self (l : List (String × α)) (k : String) (v : α)
    (h : (l.find? (fun p => p.1 == k)).isSome) :
    (l.map (fun p => if p.1 == k then (k, v) else p)).find? (fun p => p.1 == k)
      = some (k, v) := by
  induction l with
  | nil => simp at h
  | cons p t ih =>
    by_cases hp : p.1 = k
    · simp [List.find?_cons, hp]
    · have hb : (p.1 == k) = false := beq_eq_false_iff_ne.mpr hp
      simp only [List.find?_cons, hb] at h
      simp only [List.map_cons, hb, Bool.false_eq_true, if_false,
        List.find?_cons, hb]
      exact ih h

theorem find?_overwrite_ne (l : List (String × α)) (k k' : String) (v : α)
    (h : k' ≠ k) :
    (l.map (fun p => if p.1 == k then (k, v) else p)).find? (fun p => p.1 == k')
      = l.find? (fun p => p.1 == k') := by
  have hkk : (k == k') = false := beq_eq_false_iff_ne.mpr (fun hh => h hh.symm)
  induction l with
  | nil => rfl
  | cons p t ih =>
    by_cases hp : p.1 = k
    · have hb : (p.1 == k) = true := beq_iff_eq.mpr hp
      have hb2 : (p.1 == k') = false := by
        rw [hp]
        exact hkk
      simp only [List.map_cons, hb, if_true, List.find?_cons, hkk, hb2]
      exact ih
    · have hb : (p.1 == k) = false := beq_eq_false_iff_ne.mpr hp
      by_cases hq : p.1 = k'
      · have hb2 : (p.1 == k') = true := beq_iff_eq.mpr hq
        simp only [List.map_cons, hb, Bool.false_eq_true, if_false,
          List.find?_cons, hb2]
      · have hb2 : (p.1 == k') = false := beq_eq_false_iff_ne.mpr hq
        simp only [List.map_cons, hb, Bool.false_eq_true, if_false,
          List.find?_cons, hb2]
        exact ih

theorem dget_dset_self (l : List (String × α)) (k : String) (v : α) :
    dget (dset l k v) k = some v := by
  unfold dget dset
  split
  case isTrue h =>
    rw [find?_overwrite_self l k v h]
    rfl
  case isFalse h =>
    rw [List.find?_append]
    have hn : l.find? (fun p => p.1 == k) = none :=
      Option.not_isSome_iff_eq_none.mp h
    simp [hn, List.find?_cons]

theorem dget_dset_ne (l : List (String × α)) (k k' : String) (v : α)
    (h : k' ≠ k) : dget (dset l k v) k' = dget l k' := by
  unfold dget dset
  split
  case isTrue hs =>
    rw [find?_overwrite_ne l k k' v h]
  case isFalse hs =>
    rw [List.find?_append]
    have h1 : ([(k, v)].find? (fun p => p.1 == k')) = none := by
      simp [List.find?_cons, beq_eq_false_iff_ne.mpr (fun hh => h hh.symm)]
    rw [h1]
    cases l.find? (fun p => p.1 == k') <;> rfl

/-! Claim theorems. -/

/-- C1: for a plan with the current day not the last, when `complete_set`
marks the last remaining set of day `i` complete (every set id of day `i`
is then in the completed set and the day is non-empty), it sets
`current_day_index` to `i + 1` and removes from the completed set exactly
the ids belonging to day `i`, leaving ids belonging to other days
untouched. -/
theorem complete_set_advances_midplan (env : Env) (now : Nat)
    (doc : ProgressRecord) (set_id : String)
    (hi : doc.current_day_index + 1 < env.workout_plan.length)
    (hmem : set_id ∈ day_set_ids env.workout_plan doc.current_day_index)
    (hall : ∀ s ∈ day_set_ids env.workout_plan doc.current_day_index,
      s ∈ insert set_id doc.completed_sets) :
    ∃ out doc2,
      complete_set_endpoint env now doc set_id = .ok (out, doc2) ∧
      doc2.current_day_index = doc.current_day_index + 1 ∧
      ∀ x : String,
        x ∈ doc2.completed_sets ↔
          (x ∈ insert set_id doc.completed_sets ∧
            x ∉ day_set_ids env.workout_plan doc.current_day_index) := by
  have hne : env.workout_plan ≠ [] := by
    intro h
    rw [h] at hi
    simp at hi
  have hlt : doc.current_day_index < env.workout_plan.length :=
    Nat.lt_of_succ_lt hi
  have heff : effective_day_index env.workout_plan doc.current_day_index
      = doc.current_day_index := by
    unfold effective_day_index
    rw [if_neg (Nat.not_le.mpr hlt)]
  have hcomplete : all_day_sets_complete
      (day_set_ids env.workout_plan doc.current_day_index)
      (mark_set_complete env now doc set_id).completed_sets = true := by
    rw [mark_set_complete_completed_sets]
    exact (all_day_sets_complete_iff _ _).mpr ⟨hall, List.ne_nil_of_mem hmem⟩
  unfold complete_set_endpoint
  rw [if_neg hne]
  simp only [heff]
  rw [if_pos hmem, if_pos hcomplete, if_neg (Nat.not_le.mpr hi)]
  refine ⟨_, _, rfl, rfl, ?_⟩
  intro x
  simp only [Finset.mem_sdiff, List.mem_toFinset, mark_set_complete_completed_sets]

/-- Witness for C1 on the two day fixture: completing the only set of
day 0 advances to day 1 and clears exactly the marks of day 0. -/
theorem complete_set_advances_midplan_witness :
    ∃ out doc2,
      complete_set_endpoint envTwoDay 7 docFresh "A" = .ok (out, doc2) ∧
      doc2.current_day_index = docFresh.current_day_index + 1 ∧
      ∀ x : String,
        x ∈ doc2.completed_sets ↔
          (x ∈ insert "A" docFresh.completed_sets ∧
            x ∉ day_set_ids envTwoDay.workout_plan docFresh.current_day_index) :=
  complete_set_advances_midplan envTwoDay 7 docFresh "A" (by decide) (by decide)
    (by decide)

/-- C2: completing the last day of the plan rolls `current_day_index` over
to 0 and removes from the completed set exactly the ids belonging to the
new day 0, leaving completion marks of all other days (including the just
finished last day) untouched; afterwards the sets of day 0 complete again
without `SetNotInCurrentDay`. -/
theorem complete_set_rollover (env : Env) (now now2 : Nat)
    (doc : ProgressRecord) (set_id : String)
    (hi : doc.current_day_index + 1 = env.workout_plan.length)
    (hmem : set_id ∈ day_set_ids env.workout_plan doc.current_day_index)
    (hall : ∀ s ∈ day_set_ids env.workout_plan doc.current_day_index,
      s ∈ insert set_id doc.completed_sets) :
    ∃ out doc2,
      complete_set_endpoint env now doc set_id = .ok (out, doc2) ∧
      doc2.current_day_index = 0 ∧
      (∀ x : String,
        x ∈ doc2.completed_sets ↔
          (x ∈ insert set_id doc.completed_sets ∧
            x ∉ day_set_ids env.workout_plan 0)) ∧
      ∀ b ∈ day_set_ids env.workout_plan 0,
        ∃ out2 doc3, complete_set_endpoint env now2 doc2 b = .ok (out2, doc3) := by
  have hpos : 0 < env.workout_plan.length := by omega
  have hne : env.workout_plan ≠ [] := by
    intro h
    rw [h] at hpos
    simp at hpos
  have hlt : doc.current_day_index < env.workout_plan.length := by omega
  have heff : effective_day_index env.workout_plan doc.current_day_index
      = doc.current_day_index := by
    unfold effective_day_index
    rw [if_neg (Nat.not_le.mpr hlt)]
  have hcomplete : all_day_sets_complete
      (day_set_ids env.workout_plan doc.current_day_index)
      (mark_set_complete env now doc set_id).completed_sets = true := by
    rw [mark_set_complete_completed_sets]
    exact (all_day_sets_complete_iff _ _).mpr ⟨hall, List.ne_nil_of_mem hmem⟩
  unfold complete_set_endpoint
  rw [if_neg hne]
  simp only [heff]
  rw [if_pos hmem, if_pos hcomplete, if_pos (Nat.le_of_eq hi.symm)]
  refine ⟨_, _, rfl, rfl, ?_, ?_⟩
  · intro x
    simp only [Finset.mem_sdiff, List.mem_toFinset,
      mark_set_complete_completed_sets]
  · intro b hb
    have heff0 : effective_day_index env.workout_plan 0 = 0 := by
      unfold effective_day_index
      split <;> rfl
    rw [if_neg hne]
    simp only [heff0]
    rw [if_pos hb]
    split
    · split
      · exact ⟨_, _, rfl⟩
      · exact ⟨_, _, rfl⟩
    · exact ⟨_, _, rfl⟩

/-- Witness for C2 on the two day fixture: completing the only set of the
last day rolls over to day 0, clears the marks of day 0 only, and day 0
can be completed again. -/
theorem complete_set_rollover_witness :
    ∃ out doc2,
      complete_set_endpoint envTwoDay 3
        { current_day_index := 1, completed_sets := ∅, set_progress := [],
          updated_at := 0 } "B" = .ok (out, doc2) ∧
      doc2.current_day_index = 0 ∧
      (∀ x : String,
        x ∈ doc2.completed_sets ↔
          (x ∈ insert "B" (∅ : Finset String) ∧
            x ∉ day_set_ids envTwoDay.workout_plan 0)) ∧
      ∀ b ∈ day_set_ids envTwoDay.workout_plan 0,
        ∃ out2 doc3,
          complete_set_endpoint envTwoDay 4
            doc2 b = .ok (out2, doc3) :=
  complete_set_rollover envTwoDay 3 4
    { current_day_index := 1, completed_sets := ∅, set_progress := [],
      updated_at := 0 } "B" (by decide) (by decide) (by decide)

/-- The defensive reset is the identity on an in-range index. -/
theorem effective_day_index_of_lt (plan : List DayPlan) (i : Nat)
    (h : i < plan.length) : effective_day_index plan i = i := by
  unfold effective_day_index
  rw [if_neg (Nat.not_le.mpr h)]

/-- On a non-empty plan `build_status_response` always succeeds, and the
view reports the (defensively reset) current day index. -/
theorem build_status_ok (env : Env) (doc : ProgressRecord)
    (hp : env.workout_plan ≠ []) :
    ∃ v, build_status_response env doc = .ok v ∧
      v.current_day_index
        = effective_day_index env.workout_plan doc.current_day_index := by
  unfold build_status_response
  rw [if_neg hp]
  exact ⟨_, rfl, rfl⟩

/-- C3: `get_status` reconciliation: on a record whose (defensively reset,
covering the out-of-range case) current day is non-empty and fully
complete, the read itself advances the day pointer, the advancement agrees
exactly with the record `complete_set` would produce for any set of that
day, and the returned view is the next day's view, with no `complete_set`
call needed. -/
theorem get_status_reconciles (env : Env) (now : Nat) (doc : ProgressRecord)
    (hp : env.workout_plan ≠ [])
    (hne : day_set_ids env.workout_plan
        (effective_day_index env.workout_plan doc.current_day_index) ≠ [])
    (hall : ∀ s ∈ day_set_ids env.workout_plan
        (effective_day_index env.workout_plan doc.current_day_index),
      s ∈ doc.completed_sets) :
    (check_and_progress_day_if_needed env now doc).current_day_index =
      (if effective_day_index env.workout_plan doc.current_day_index + 1
          ≥ env.workout_plan.length then 0
       else effective_day_index env.workout_plan doc.current_day_index + 1) ∧
    (∀ sid ∈ day_set_ids env.workout_plan
        (effective_day_index env.workout_plan doc.current_day_index),
      ∃ out, complete_set_endpoint env now doc sid =
        .ok (out, check_and_progress_day_if_needed env now doc)) ∧
    ∃ v, get_status env now doc = .ok v ∧
      v.current_day_index =
        (if effective_day_index env.workout_plan doc.current_day_index + 1
            ≥ env.workout_plan.length then 0
         else effective_day_index env.workout_plan doc.current_day_index + 1) := by
  have hcomp : all_day_sets_complete
      (day_set_ids env.workout_plan
        (effective_day_index env.workout_plan doc.current_day_index))
      doc.completed_sets = true :=
    (all_day_sets_complete_iff _ _).mpr ⟨hall, hne⟩
  have hchk : check_and_progress_day_if_needed env now doc =
      (if effective_day_index env.workout_plan doc.current_day_index + 1
          ≥ env.workout_plan.length then
        { doc with current_day_index := 0
                   completed_sets := doc.completed_sets \
                     (day_set_ids env.workout_plan 0).toFinset
                   updated_at := now }
       else
        { doc with current_day_index :=
                     effective_day_index env.workout_plan doc.current_day_index + 1
                   completed_sets := doc.completed_sets \
                     (day_set_ids env.workout_plan
                       (effective_day_index env.workout_plan
                         doc.current_day_index)).toFinset
                   updated_at := now }) := by
    unfold check_and_progress_day_if_needed
    rw [if_neg hp]
    simp only [hcomp, if_true]
  have hidx : (check_and_progress_day_if_needed env now doc).current_day_index =
      (if effective_day_index env.workout_plan doc.current_day_index + 1
          ≥ env.workout_plan.length then 0
       else effective_day_index env.workout_plan doc.current_day_index + 1) := by
    rw [hchk]
    by_cases hc : effective_day_index env.workout_plan doc.current_day_index + 1
        ≥ env.workout_plan.length
    · rw [if_pos hc, if_pos hc]
    · rw [if_neg hc, if_neg hc]
  refine ⟨hidx, ?_, ?_⟩
  · intro sid hsid
    have hsidc : sid ∈ doc.completed_sets := hall sid hsid
    unfold complete_set_endpoint
    rw [if_neg hp]
    simp only [mark_set_complete_already env now doc sid hsidc]
    rw [if_pos hsid, if_pos hcomp, hchk]
    by_cases hc : effective_day_index env.workout_plan doc.current_day_index + 1
        ≥ env.workout_plan.length
    · rw [if_pos hc, if_pos hc]
      exact ⟨_, rfl⟩
    · rw [if_neg hc, if_neg hc]
      exact ⟨_, rfl⟩
  · obtain ⟨v, hv, hvi⟩ :=
      build_status_ok env (check_and_progress_day_if_needed env now doc) hp
    refine ⟨v, hv, ?_⟩
    rw [hvi, hidx]
    have hpos : 0 < env.workout_plan.length := List.length_pos.mpr hp
    by_cases hc : effective_day_index env.workout_plan doc.current_day_index + 1
        ≥ env.workout_plan.length
    · rw [if_pos hc, effective_day_index_of_lt _ _ hpos]
    · rw [if_neg hc, effective_day_index_of_lt _ _ (by omega)]

/-- Witness for C3: a record manually constructed with day 0 fully
complete yields the day 1 view from a plain `get_status` call. -/
theorem get_status_reconciles_witness :
    (check_and_progress_day_if_needed envTwoDay 9
      { current_day_index := 0, completed_sets := {"A"}, set_progress := [],
        updated_at := 0 }).current_day_index =
      (if effective_day_index envTwoDay.workout_plan 0 + 1
          ≥ envTwoDay.workout_plan.length then 0
       else effective_day_index envTwoDay.workout_plan 0 + 1) ∧
    (∀ sid ∈ day_set_ids envTwoDay.workout_plan
        (effective_day_index envTwoDay.workout_plan 0),
      ∃ out, complete_set_endpoint envTwoDay 9
          { current_day_index := 0, completed_sets := {"A"},
            set_progress := [], updated_at := 0 } sid =
        .ok (out, check_and_progress_day_if_needed envTwoDay 9
          { current_day_index := 0, completed_sets := {"A"},
            set_progress := [], updated_at := 0 })) ∧
    ∃ v, get_status envTwoDay 9
        { current_day_index := 0, completed_sets := {"A"}, set_progress := [],
          updated_at := 0 } = .ok v ∧
      v.current_day_index =
        (if effective_day_index envTwoDay.workout_plan 0 + 1
            ≥ envTwoDay.workout_plan.length then 0
         else effective_day_index envTwoDay.workout_plan 0 + 1) :=
  get_status_reconciles envTwoDay 9
    { current_day_index := 0, completed_sets := {"A"}, set_progress := [],
      updated_at := 0 } (by decide) (by decide) (by decide)

/-- When the reconciled current day is fully complete,
`check_and_progress_day_if_needed` advances (or rolls over) and clears the
corresponding day marks. -/
theorem check_and_progress_of_complete (env : Env) (now : Nat)
    (doc : ProgressRecord) (hp : env.workout_plan ≠ [])
    (hcomp : all_day_sets_complete
      (day_set_ids env.workout_plan
        (effective_day_index env.workout_plan doc.current_day_index))
      doc.completed_sets = true) :
    check_and_progress_day_if_needed env now doc =
      (if effective_day_index env.workout_plan doc.current_day_index + 1
          ≥ env.workout_plan.length then
        { doc with current_day_index := 0
                   completed_sets := doc.completed_sets \
                     (day_set_ids env.workout_plan 0).toFinset
                   updated_at := now }
       else
        { doc with current_day_index :=
                     effective_day_index env.workout_plan doc.current_day_index + 1
                   completed_sets := doc.completed_sets \
                     (day_set_ids env.workout_plan
                       (effective_day_index env.workout_plan
                         doc.current_day_index)).toFinset
                   updated_at := now }) := by
  unfold check_and_progress_day_if_needed
  rw [if_neg hp]
  simp only [hcomp, if_true]

/-- When the reconciled current day is not fully complete,
`check_and_progress_day_if_needed` leaves the record unchanged. -/
theorem check_and_progress_of_incomplete (env : Env) (now : Nat)
    (doc : ProgressRecord) (hp : env.workout_plan ≠ [])
    (hcomp : all_day_sets_complete
      (day_set_ids env.workout_plan
        (effective_day_index env.workout_plan doc.current_day_index))
      doc.completed_sets = false) :
    check_and_progress_day_if_needed env now doc = doc := by
  unfold check_and_progress_day_if_needed
  rw [if_neg hp]
  simp only [hcomp, Bool.false_eq_true, if_false]

/-- C4 counterexample: a record constructed externally with an
out-of-range index 5 over the two day plan, with day 0 and day 1 both
fully marked, still refers to a fully complete day after reconciliation:
one `get_status` lands on day 1 with every set of day 1 complete (the view
reports 100 percent), so the claimed invariant fails; reconciliation
advances at most one day per read. -/
theorem reconcile_full_day_counterexample :
    (check_and_progress_day_if_needed envTwoDay 0
      { current_day_index := 5, completed_sets := {"A", "B"},
        set_progress := [], updated_at := 0 }).current_day_index = 1 ∧
    all_day_sets_complete
      (day_set_ids envTwoDay.workout_plan
        (effective_day_index envTwoDay.workout_plan
          (check_and_progress_day_if_needed envTwoDay 0
            { current_day_index := 5, completed_sets := {"A", "B"},
              set_progress := [], updated_at := 0 }).current_day_index))
      (check_and_progress_day_if_needed envTwoDay 0
        { current_day_index := 5, completed_sets := {"A", "B"},
          set_progress := [], updated_at := 0 }).completed_sets = true ∧
    (get_status envTwoDay 0
      { current_day_index := 5, completed_sets := {"A", "B"},
        set_progress := [], updated_at := 0 }).map
        (fun v => (v.current_day_index, v.progress.completion_percentage))
      = .ok (1, 100) := by
  refine ⟨by decide, by decide, by rfl⟩

/-- C4 amended: reconciliation performs at most one advancement per read,
so the current day observed after reconciliation is not fully complete
provided the day the single advancement step lands on is not itself
already fully covered by the remaining completion marks (which holds in
particular for every record whose non-current days are unmarked). -/
theorem reconcile_single_step_invariant (env : Env) (now : Nat)
    (doc : ProgressRecord)
    (hp : env.workout_plan ≠ [])
    (hnext : all_day_sets_complete
        (day_set_ids env.workout_plan
          (effective_day_index env.workout_plan doc.current_day_index))
        doc.completed_sets = true →
      all_day_sets_complete
        (day_set_ids env.workout_plan
          (if effective_day_index env.workout_plan doc.current_day_index + 1
              ≥ env.workout_plan.length then 0
           else effective_day_index env.workout_plan doc.current_day_index + 1))
        (doc.completed_sets \
          (if effective_day_index env.workout_plan doc.current_day_index + 1
              ≥ env.workout_plan.length then
            (day_set_ids env.workout_plan 0).toFinset
           else
            (day_set_ids env.workout_plan
              (effective_day_index env.workout_plan
                doc.current_day_index)).toFinset)) = false) :
    all_day_sets_complete
      (day_set_ids env.workout_plan
        (effective_day_index env.workout_plan
          (check_and_progress_day_if_needed env now doc).current_day_index))
      (check_and_progress_day_if_needed env now doc).completed_sets = false := by
  have hpos : 0 < env.workout_plan.length := List.length_pos.mpr hp
  by_cases hcomp : all_day_sets_complete
      (day_set_ids env.workout_plan
        (effective_day_index env.workout_plan doc.current_day_index))
      doc.completed_sets = true
  · rw [check_and_progress_of_complete env now doc hp hcomp]
    have h2 := hnext hcomp
    by_cases hc : effective_day_index env.workout_plan doc.current_day_index + 1
        ≥ env.workout_plan.length
    · rw [if_pos hc]
      rw [if_pos hc, if_pos hc] at h2
      simp only [effective_day_index_of_lt _ _ hpos]
      exact h2
    · rw [if_neg hc]
      rw [if_neg hc, if_neg hc] at h2
      simp only [effective_day_index_of_lt _ _ (by omega : effective_day_index
        env.workout_plan doc.current_day_index + 1 < env.workout_plan.length)]
      exact h2
  · have hcomp2 : all_day_sets_complete
        (day_set_ids env.workout_plan
          (effective_day_index env.workout_plan doc.current_day_index))
        doc.completed_sets = false := Bool.eq_false_iff.mpr hcomp
    rw [check_and_progress_of_incomplete env now doc hp hcomp2]
    exact hcomp2

/-- Witness for the amended C4: completing day 0 of the two day fixture
lands on day 1, which is not fully complete. -/
theorem reconcile_single_step_invariant_witness :
    all_day_sets_complete
      (day_set_ids envTwoDay.workout_plan
        (effective_day_index envTwoDay.workout_plan
          (check_and_progress_day_if_needed envTwoDay 2
            { current_day_index := 0, completed_sets := {"A"},
              set_progress := [], updated_at := 0 }).current_day_index))
      (check_and_progress_day_if_needed envTwoDay 2
        { current_day_index := 0, completed_sets := {"A"},
          set_progress := [], updated_at := 0 }).completed_sets = false :=
  reconcile_single_step_invariant envTwoDay 2
    { current_day_index := 0, completed_sets := {"A"}, set_progress := [],
      updated_at := 0 } (by decide) (by decide)

/-- C5: completing the same set twice is idempotent. When the current day
is not yet fully complete after one completion, the second call returns
the same completed set membership and the same day index as the first;
and when the set is already complete and the day is fully complete, the
call still performs the day-completion check and triggers advancement, so
a retry does not get stuck. -/
theorem complete_set_idempotent (env : Env) (now1 now2 : Nat)
    (doc : ProgressRecord) (set_id : String)
    (hp : env.workout_plan ≠ [])
    (hmem : set_id ∈ day_set_ids env.workout_plan
      (effective_day_index env.workout_plan doc.current_day_index)) :
    (all_day_sets_complete
        (day_set_ids env.workout_plan
          (effective_day_index env.workout_plan doc.current_day_index))
        (insert set_id doc.completed_sets) = false →
      ∃ out1 doc1 out2 doc2,
        complete_set_endpoint env now1 doc set_id = .ok (out1, doc1) ∧
        complete_set_endpoint env now2 doc1 set_id = .ok (out2, doc2) ∧
        doc2.completed_sets = doc1.completed_sets ∧
        doc2.current_day_index = doc1.current_day_index) ∧
    (set_id ∈ doc.completed_sets →
      all_day_sets_complete
        (day_set_ids env.workout_plan
          (effective_day_index env.workout_plan doc.current_day_index))
        doc.completed_sets = true →
      ∃ out doc2,
        complete_set_endpoint env now1 doc set_id = .ok (out, doc2) ∧
        out.day_complete = true ∧ out.new_day_started = true ∧
        doc2.current_day_index =
          (if effective_day_index env.workout_plan doc.current_day_index + 1
              ≥ env.workout_plan.length then 0
           else effective_day_index env.workout_plan doc.current_day_index + 1)) := by
  constructor
  · intro hnf
    have hnf1 : all_day_sets_complete
        (day_set_ids env.workout_plan
          (effective_day_index env.workout_plan doc.current_day_index))
        (mark_set_complete env now1 doc set_id).completed_sets = false := by
      rw [mark_set_complete_completed_sets]
      exact hnf
    have hmem1 : set_id ∈ (mark_set_complete env now1 doc set_id).completed_sets := by
      rw [mark_set_complete_completed_sets]
      exact Finset.mem_insert_self _ _
    have h1 : complete_set_endpoint env now1 doc set_id =
        .ok ({ day_complete := false, new_day_started := false,
               new_day_name := none,
               current_day_index :=
                 effective_day_index env.workout_plan doc.current_day_index },
             mark_set_complete env now1 doc set_id) := by
      unfold complete_set_endpoint
      rw [if_neg hp]
      simp only [hnf1, Bool.false_eq_true, if_false]
      rw [if_pos hmem]
    have hnf2 : all_day_sets_complete
        (day_set_ids env.workout_plan
          (effective_day_index env.workout_plan
            (mark_set_complete env now1 doc set_id).current_day_index))
        (mark_set_complete env now2 (mark_set_complete env now1 doc set_id)
          set_id).completed_sets = false := by
      rw [mark_set_complete_already env now2 _ set_id hmem1]
      simp only [mark_set_complete_current_day_index]
      exact hnf1
    have h2 : complete_set_endpoint env now2
        (mark_set_complete env now1 doc set_id) set_id =
        .ok ({ day_complete := false, new_day_started := false,
               new_day_name := none,
               current_day_index :=
                 effective_day_index env.workout_plan
                   (mark_set_complete env now1 doc set_id).current_day_index },
             mark_set_complete env now2 (mark_set_complete env now1 doc set_id)
               set_id) := by
      unfold complete_set_endpoint
      rw [if_neg hp]
      simp only [hnf2, Bool.false_eq_true, if_false]
      rw [if_pos (by
        simp only [mark_set_complete_current_day_index]
        exact hmem)]
    refine ⟨_, _, _, _, h1, h2, ?_, ?_⟩
    · rw [mark_set_complete_already env now2 _ set_id hmem1]
    · rw [mark_set_complete_already env now2 _ set_id hmem1,
        mark_set_complete_current_day_index]
  · intro hac hfull
    have hfull1 : all_day_sets_complete
        (day_set_ids env.workout_plan
          (effective_day_index env.workout_plan doc.current_day_index))
        (mark_set_complete env now1 doc set_id).completed_sets = true := by
      rw [mark_set_complete_completed_sets, Finset.insert_eq_self.mpr hac]
      exact hfull
    unfold complete_set_endpoint
    rw [if_neg hp]
    simp only [hfull1, if_true]
    rw [if_pos hmem]
    by_cases hc : effective_day_index env.workout_plan doc.current_day_index + 1
        ≥ env.workout_plan.length
    · rw [if_pos hc, if_pos hc]
      exact ⟨_, _, rfl, rfl, rfl, rfl⟩
    · rw [if_neg hc, if_neg hc]
      exact ⟨_, _, rfl, rfl, rfl, rfl⟩

/-- Witness for C5 on the three set fixture: a double completion of A on a
fresh record agrees with a single one, and a completion of an already
complete A on a fully marked day still advances (rolls over). -/
theorem complete_set_idempotent_witness :
    ((all_day_sets_complete
        (day_set_ids envThreeSets.workout_plan
          (effective_day_index envThreeSets.workout_plan 0))
        (insert "A" (∅ : Finset String)) = false →
      ∃ out1 doc1 out2 doc2,
        complete_set_endpoint envThreeSets 1 docFresh "A" = .ok (out1, doc1) ∧
        complete_set_endpoint envThreeSets 2 doc1 "A" = .ok (out2, doc2) ∧
        doc2.completed_sets = doc1.completed_sets ∧
        doc2.current_day_index = doc1.current_day_index) ∧
     ("A" ∈ docFresh.completed_sets →
      all_day_sets_complete
        (day_set_ids envThreeSets.workout_plan
          (effective_day_index envThreeSets.workout_plan 0))
        docFresh.completed_sets = true →
      ∃ out doc2,
        complete_set_endpoint envThreeSets 1 docFresh "A" = .ok (out, doc2) ∧
        out.day_complete = true ∧ out.new_day_started = true ∧
        doc2.current_day_index =
          (if effective_day_index envThreeSets.workout_plan 0 + 1
              ≥ envThreeSets.workout_plan.length then 0
           else effective_day_index envThreeSets.workout_plan 0 + 1))) ∧
    ((all_day_sets_complete
        (day_set_ids envThreeSets.workout_plan
          (effective_day_index envThreeSets.workout_plan 0))
        (insert "A" ({"A", "B", "C"} : Finset String)) = false →
      ∃ out1 doc1 out2 doc2,
        complete_set_endpoint envThreeSets 1
          { current_day_index := 0, completed_sets := {"A", "B", "C"},
            set_progress := [], updated_at := 0 } "A" = .ok (out1, doc1) ∧
        complete_set_endpoint envThreeSets 2 doc1 "A" = .ok (out2, doc2) ∧
        doc2.completed_sets = doc1.completed_sets ∧
        doc2.current_day_index = doc1.current_day_index) ∧
     ("A" ∈ ({"A", "B", "C"} : Finset String) →
      all_day_sets_complete
        (day_set_ids envThreeSets.workout_plan
          (effective_day_index envThreeSets.workout_plan 0))
        ({"A", "B", "C"} : Finset String) = true →
      ∃ out doc2,
        complete_set_endpoint envThreeSets 1
          { current_day_index := 0, completed_sets := {"A", "B", "C"},
            set_progress := [], updated_at := 0 } "A" = .ok (out, doc2) ∧
        out.day_complete = true ∧ out.new_day_started = true ∧
        doc2.current_day_index =
          (if effective_day_index envThreeSets.workout_plan 0 + 1
              ≥ envThreeSets.workout_plan.length then 0
           else effective_day_index envThreeSets.workout_plan 0 + 1))) :=
  ⟨complete_set_idempotent envThreeSets 1 2 docFresh "A" (by decide) (by decide),
   complete_set_idempotent envThreeSets 1 2
     { current_day_index := 0, completed_sets := {"A", "B", "C"},
       set_progress := [], updated_at := 0 } "A" (by decide) (by decide)⟩

/-- C6: for a non-empty plan, completing a set id that does not occur in
the set list of the (defensively reset) current day fails with
`SetNotInCurrentDay`, and the stored record is left entirely unchanged
since the validation precedes every write. -/
theorem complete_set_rejects_foreign_set (env : Env) (now : Nat)
    (doc : ProgressRecord) (set_id : String)
    (hp : env.workout_plan ≠ [])
    (hnot : set_id ∉ day_set_ids env.workout_plan
      (effective_day_index env.workout_plan doc.current_day_index)) :
    complete_set_endpoint env now doc set_id = .error .SetNotInCurrentDay ∧
    complete_set_store env now doc set_id = doc := by
  have h1 : complete_set_endpoint env now doc set_id
      = .error .SetNotInCurrentDay := by
    unfold complete_set_endpoint
    rw [if_neg hp]
    simp only [eq_false hnot, if_false]
  refine ⟨h1, ?_⟩
  unfold complete_set_store
  rw [h1]

/-- Witness for C6: at day 0 of the two day fixture, completing B (a day 1
set) is rejected and the record is untouched. -/
theorem complete_set_rejects_foreign_set_witness :
    complete_set_endpoint envTwoDay 5 docFresh "B"
        = .error .SetNotInCurrentDay ∧
    complete_set_store envTwoDay 5 docFresh "B" = docFresh :=
  complete_set_rejects_foreign_set envTwoDay 5 docFresh "B" (by decide)
    (by decide)

/-- C7 counterexample: with 2 of 3 sets complete the code reports a
completion percentage of 66 (truncation of 200/3), while the specified
`round(completed/total*100)` is 67, so the claimed rounding is false at
this input. -/
theorem completion_percentage_round_counterexample :
    (get_status envThreeSets 0
      { current_day_index := 0, completed_sets := {"A", "B"},
        set_progress := [], updated_at := 0 }).map
        (fun v => (v.progress.completed_sets, v.progress.total_sets,
          v.progress.completion_percentage)) = .ok (2, 3, 66) ∧
    spec_completion_percentage 2 3 = 67 ∧ (66 : Nat) ≠ 67 :=
  ⟨by rfl, by decide, by decide⟩

/-- C7 amended: the status view satisfies `completion_percentage =
completed_sets * 100 / total_sets` (floor division, modelling the Python
truncation `int(completed/total*100)`) when `total_sets > 0`, and 0 when
`total_sets = 0` (the same guarded expression covers both cases), with
`completed_sets ≤ total_sets`. -/
theorem completion_percentage_truncates (env : Env) (now : Nat)
    (doc : ProgressRecord) (hp : env.workout_plan ≠ []) :
    ∃ v, get_status env now doc = .ok v ∧
      v.progress.completion_percentage =
        (if v.progress.total_sets > 0 then
          v.progress.completed_sets * 100 / v.progress.total_sets else 0) ∧
      v.progress.completed_sets ≤ v.progress.total_sets := by
  unfold get_status build_status_response
  rw [if_neg hp]
  refine ⟨_, rfl, rfl, List.length_filter_le _ _⟩

/-- Witness for the amended C7 at 2 of 3 sets complete. -/
theorem completion_percentage_truncates_witness :
    ∃ v, get_status envThreeSets 0
      { current_day_index := 0, completed_sets := {"A", "B"},
        set_progress := [], updated_at := 0 } = .ok v ∧
      v.progress.completion_percentage =
        (if v.progress.total_sets > 0 then
          v.progress.completed_sets * 100 / v.progress.total_sets else 0) ∧
      v.progress.completed_sets ≤ v.progress.total_sets :=
  completion_percentage_truncates envThreeSets 0
    { current_day_index := 0, completed_sets := {"A", "B"},
      set_progress := [], updated_at := 0 } (by decide)

/-- C8: on a workout whose day-plan list is empty, `get_status` fails with
`EmptyPlan`; it never returns a view at all for such a workout. -/
theorem get_status_empty_plan_guard (env : Env) (now : Nat)
    (doc : ProgressRecord) (hp : env.workout_plan = []) :
    get_status env now doc = .error .EmptyPlan := by
  simp [get_status, build_status_response, check_and_progress_day_if_needed, hp]

/-- Witness for C8 on the empty-plan fixture. -/
theorem get_status_empty_plan_guard_witness :
    get_status envEmptyPlan 0 docFresh = .error .EmptyPlan :=
  get_status_empty_plan_guard envEmptyPlan 0 docFresh (by decide)

/-- The set ids read from the plan entry with its dictionary default agree
with `day_set_ids`. -/
theorem day_set_ids_eq_getD (plan : List DayPlan) (i : Nat) :
    ((plan.get? i).getD { day := none, exercises_ids := [] }).exercises_ids
      = day_set_ids plan i := by
  unfold day_set_ids
  cases plan.get? i <;> rfl

/-- C9: `update_set_progress` modifies only the `set_progress` entry of
the given set (and timestamps): the completed set, the day index, the
progress entries of every other set and the `is_complete` flag of the
updated entry are unchanged, and no advancement happens; for a set id
belonging to no day of the plan it fails with `SetNotFound`. -/
theorem update_set_progress_frame (env : Env) (now : Nat)
    (doc : ProgressRecord) (set_id : String) (completed_reps : Option Int)
    (completed_duration_sec : Option Int) :
    ((∃ dp ∈ env.workout_plan, set_id ∈ dp.exercises_ids) →
      ∃ doc2, update_set_progress_endpoint env now doc set_id completed_reps
          completed_duration_sec = .ok doc2 ∧
        doc2.completed_sets = doc.completed_sets ∧
        doc2.current_day_index = doc.current_day_index ∧
        (∀ k, k ≠ set_id → dget doc2.set_progress k = dget doc.set_progress k) ∧
        ((dget doc2.set_progress set_id).getD SetProg.empty).is_complete
          = ((dget doc.set_progress set_id).getD SetProg.empty).is_complete) ∧
    ((¬ ∃ dp ∈ env.workout_plan, set_id ∈ dp.exercises_ids) →
      update_set_progress_endpoint env now doc set_id completed_reps
        completed_duration_sec = .error .SetNotFound) := by
  constructor
  · intro hfound
    have hb : env.workout_plan.any
        (fun dp => decide (set_id ∈ dp.exercises_ids)) = true := by
      rw [List.any_eq_true]
      obtain ⟨dp, hdp, hmem⟩ := hfound
      exact ⟨dp, hdp, decide_eq_true hmem⟩
    unfold update_set_progress_endpoint
    simp only [hb, if_true]
    refine ⟨_, rfl, rfl, rfl, ?_, ?_⟩
    · intro k hk
      exact dget_dset_ne _ _ _ _ hk
    · rw [dget_dset_self]
      cases completed_reps <;> cases completed_duration_sec <;> rfl
  · intro hnf
    have hb : env.workout_plan.any
        (fun dp => decide (set_id ∈ dp.exercises_ids)) = false := by
      refine Bool.eq_false_iff.mpr (fun hh => ?_)
      rw [List.any_eq_true] at hh
      obtain ⟨dp, hdp, hmem⟩ := hh
      exact hnf ⟨dp, hdp, of_decide_eq_true hmem⟩
    unfold update_set_progress_endpoint
    simp only [hb, Bool.false_eq_true, if_false]

/-- Witness for C9: updating reps of A (a plan set) changes only its
progress entry, and updating an unknown set Z fails. -/
theorem update_set_progress_frame_witness :
    ((∃ dp ∈ envTwoDay.workout_plan, "A" ∈ dp.exercises_ids) →
      ∃ doc2, update_set_progress_endpoint envTwoDay 6 docFresh "A" (some 4)
          none = .ok doc2 ∧
        doc2.completed_sets = docFresh.completed_sets ∧
        doc2.current_day_index = docFresh.current_day_index ∧
        (∀ k, k ≠ "A" →
          dget doc2.set_progress k = dget docFresh.set_progress k) ∧
        ((dget doc2.set_progress "A").getD SetProg.empty).is_complete
          = ((dget docFresh.set_progress "A").getD SetProg.empty).is_complete) ∧
    ((¬ ∃ dp ∈ envTwoDay.workout_plan, "Z" ∈ dp.exercises_ids) →
      update_set_progress_endpoint envTwoDay 6 docFresh "Z" (some 4) none
        = .error .SetNotFound) :=
  ⟨(update_set_progress_frame envTwoDay 6 docFresh "A" (some 4) none).1,
   (update_set_progress_frame envTwoDay 6 docFresh "Z" (some 4) none).2⟩

/-- C10: when every set id of the (reconciled) current day fails to
resolve in the sets collection, `get_status` still succeeds and returns a
view with an empty sets list, `total_sets = 0`, `completed_sets = 0` and
`completion_percentage = 0`: dangling references are silently skipped and
only resolvable sets are counted. -/
theorem get_status_tolerates_dangling (env : Env) (now : Nat)
    (doc : ProgressRecord)
    (hp : env.workout_plan ≠ [])
    (hdang : ∀ sid ∈ day_set_ids env.workout_plan
        (effective_day_index env.workout_plan
          (check_and_progress_day_if_needed env now doc).current_day_index),
      dget env.setsDB sid = none) :
    ∃ v, get_status env now doc = .ok v ∧ v.sets = [] ∧
      v.progress.total_sets = 0 ∧ v.progress.completed_sets = 0 ∧
      v.progress.completion_percentage = 0 := by
  have hnil : ((env.workout_plan.get?
      (effective_day_index env.workout_plan
        (check_and_progress_day_if_needed env now doc).current_day_index)).getD
      { day := none, exercises_ids := [] }).exercises_ids.filterMap
      (build_set_view env
        (check_and_progress_day_if_needed env now doc).completed_sets
        (check_and_progress_day_if_needed env now doc).set_progress) = [] := by
    rw [List.filterMap_eq_nil_iff]
    intro a ha
    rw [day_set_ids_eq_getD] at ha
    unfold build_set_view get_set_details
    rw [hdang a ha]
    rfl
  unfold get_status build_status_response
  rw [if_neg hp]
  refine ⟨_, rfl, hnil, ?_, ?_, ?_⟩
  · rw [hnil]
    rfl
  · rw [hnil]
    rfl
  · rw [hnil]
    rfl

/-- Witness for C10 on the dangling fixture. -/
theorem get_status_tolerates_dangling_witness :
    ∃ v, get_status envDangling 0 docFresh = .ok v ∧ v.sets = [] ∧
      v.progress.total_sets = 0 ∧ v.progress.completed_sets = 0 ∧
      v.progress.completion_percentage = 0 :=
  get_status_tolerates_dangling envDangling 0 docFresh (by decide) (by decide)
